import Mathlib

/-!
Verification development for the radixdlt-js client-side ledger projection core.

The TypeScript sources are shallowly embedded as pure Lean functions:
  * `RadixTransferAccountSystem.*` embeds
    src/modules/account/RadixTransferAccountSystem.ts (the UTXO projection);
  * `RadixNodeConnection.*` embeds the node connection's refcounted idle-close,
    atom-submission state handler and `submitAtom`;
  * `RadixCacheAccountSystem.*` embeds the cache account system.

TSMap / plain JS-object maps are embedded as association lists (`JMap.*`):
`set` overwrites an existing key in place or appends a fresh key at the end,
`del` removes the key, matching TSMap and JS object semantics (keys are unique
in every map the code builds).  BN big integers become `Int` (signed) or `Nat`
(the unsigned particle amounts); rxjs subject emissions become explicit lists
of emitted values carried in the state.
-/

namespace JMap

variable {α : Type}

/-- Key lookup: TSMap.has / the JS `in` operator. -/
def hasKey : List (Nat × α) → Nat → Bool
  | [], _ => false
  | kv :: rest, k => kv.1 == k || hasKey rest k

/-- TSMap.get / JS property read (`none` when the key is absent). -/
def get? : List (Nat × α) → Nat → Option α
  | [], _ => none
  | kv :: rest, k => if kv.1 == k then some kv.2 else get? rest k

/-- Read with a default value (models `if (!(k in m)) m[k] = d` then read). -/
def getD (m : List (Nat × α)) (k : Nat) (d : α) : α := (get? m k).getD d

/-- TSMap.set / JS property write: overwrite in place, or append a new key. -/
def set : List (Nat × α) → Nat → α → List (Nat × α)
  | [], k, v => [(k, v)]
  | kv :: rest, k, v => if kv.1 == k then (k, v) :: rest else kv :: set rest k v

/-- TSMap.delete / the JS `delete` operator. -/
def del : List (Nat × α) → Nat → List (Nat × α)
  | [], _ => []
  | kv :: rest, k => if kv.1 == k then del rest k else kv :: del rest k

end JMap

/-- Spin of a spun particle: UP = created, DOWN = consumed. -/
inductive RadixSpin
  | UP
  | DOWN
deriving DecidableEq, Repr

/-- An owned-tokens particle (RadixOwnedTokensParticle).  Addresses and token
class references are abstracted to `Nat` (only equality and use as map keys
matter); `isFee` marks the RadixFeeParticle subclass; `amount` is the unsigned
big integer returned by `getAmount()`. -/
structure Particle where
  id : Nat
  address : Nat
  amount : Nat
  tokenClass : Nat
  isFee : Bool
deriving DecidableEq, Repr

/-- A particle together with its spin (one entry of getSpunParticlesOfType). -/
structure SpunParticle where
  spin : RadixSpin
  particle : Particle
deriving DecidableEq, Repr

/-- An atom, restricted to the fields the transfer projection reads.
`particles` is the list returned by getSpunParticlesOfType(RadixOwnedTokensParticle),
so `atom.containsParticle(RadixOwnedTokensParticle)` is `!particles.isEmpty`. -/
structure Atom where
  hid : Nat
  timestamp : Int
  particles : List SpunParticle
deriving DecidableEq, Repr

/-- Decryption state tag of processed atom data. -/
inductive RadixDecryptionState
  | DECRYPTED
  | ENCRYPTED_NOT_OWNED
  | CANNOT_DECRYPT
deriving DecidableEq, Repr

/-- processedData.decryptedData. -/
structure DecryptedData where
  decryptionState : RadixDecryptionState
  data : String
deriving DecidableEq, Repr

/-- The atom update envelope `{action, atom, processedData}`. -/
structure RadixAtomUpdate where
  action : String
  atom : Atom
  decryptedData : Option DecryptedData
deriving DecidableEq, Repr

/-- The per-atom transaction projection. -/
structure RadixTransaction where
  hid : Nat
  balance : List (Nat × Int)
  fee : Int
  participants : List (Nat × Nat)
  timestamp : Int
  message : String
deriving DecidableEq, Repr

/-- Transaction subject event `{action, hid, transaction}`. -/
structure RadixTransactionUpdate where
  action : String
  hid : Nat
  transaction : RadixTransaction
deriving DecidableEq, Repr

/-- The mutable state of a RadixTransferAccountSystem, with the two subject
emission histories made explicit (`balanceEmissions` records every
`balanceSubject.next`, `transactionEmissions` every `transactionSubject.next`). -/
structure TransferState where
  transactions : List (Nat × RadixTransaction)
  balance : List (Nat × Int)
  unspentConsumables : List (Nat × Particle)
  spentConsumables : List (Nat × Particle)
  balanceEmissions : List (List (Nat × Int))
  transactionEmissions : List RadixTransactionUpdate
deriving DecidableEq, Repr

/-- The freshly constructed transfer account system: all maps empty. -/
def TransferState.initial : TransferState := ⟨[], [], [], [], [], []⟩

namespace RadixTransferAccountSystem

/-- One iteration of the STORE particle loop (processStoreAtom lines 84-118).
The accumulator carries (transaction, unspentConsumables, spentConsumables).
Note the source initializes `const quantity = new BN(1)` — one, not zero —
before `isub`/`iadd`, so the owned deltas below are `1 - amount` and
`1 + amount`. -/
def storeConsumable (selfAddress : Nat)
    (acc : RadixTransaction × List (Nat × Particle) × List (Nat × Particle))
    (c : SpunParticle) :
    RadixTransaction × List (Nat × Particle) × List (Nat × Particle) :=
  let t := acc.1
  let unspent := acc.2.1
  let spent := acc.2.2
  let p := c.particle
  if (p.address == selfAddress) && !p.isFee then
    match c.spin with
    | RadixSpin.DOWN =>
      ({ t with balance := (JMap.set t.balance p.tokenClass
           (JMap.getD t.balance p.tokenClass 0 + (1 - (p.amount : Int)))) },
       JMap.del unspent p.id,
       JMap.set spent p.id p)
    | RadixSpin.UP =>
      ({ t with balance := (JMap.set t.balance p.tokenClass
           (JMap.getD t.balance p.tokenClass 0 + (1 + (p.amount : Int)))) },
       if JMap.hasKey spent p.id then unspent else JMap.set unspent p.id p,
       spent)
  else if !(p.address == selfAddress) && !p.isFee then
    ({ t with participants := JMap.set t.participants p.address p.address },
     unspent, spent)
  else
    acc

/-- One iteration of the DELETE particle loop (processDeleteAtom lines 154-187).
Here the source initializes `const quantity = new BN(0)` and the spin cases are
inverted: DOWN adds `amount` back and moves the particle spent → unspent, UP
subtracts `amount` and moves it unspent → spent.  The transaction in the
accumulator is the *stored* transaction object, mutated in place by `iadd`. -/
def deleteConsumable (selfAddress : Nat)
    (acc : RadixTransaction × List (Nat × Particle) × List (Nat × Particle))
    (c : SpunParticle) :
    RadixTransaction × List (Nat × Particle) × List (Nat × Particle) :=
  let t := acc.1
  let unspent := acc.2.1
  let spent := acc.2.2
  let p := c.particle
  if (p.address == selfAddress) && !p.isFee then
    match c.spin with
    | RadixSpin.DOWN =>
      ({ t with balance := (JMap.set t.balance p.tokenClass
           (JMap.getD t.balance p.tokenClass 0 + (p.amount : Int))) },
       JMap.set unspent p.id p,
       JMap.del spent p.id)
    | RadixSpin.UP =>
      ({ t with balance := (JMap.set t.balance p.tokenClass
           (JMap.getD t.balance p.tokenClass 0 - (p.amount : Int))) },
       JMap.del unspent p.id,
       JMap.set spent p.id p)
  else if !(p.address == selfAddress) && !p.isFee then
    ({ t with participants := JMap.set t.participants p.address p.address },
     unspent, spent)
  else
    acc

/-- processStoreAtom.  Skips atoms whose hid is already stored; builds the
empty transaction (message from decrypted data unless CANNOT_DECRYPT), folds
the particle loop, inserts the transaction, folds its balance into the account
balance, and emits on both subjects. -/
def processStoreAtom (selfAddress : Nat) (st : TransferState)
    (atomUpdate : RadixAtomUpdate) : TransferState :=
  let atom := atomUpdate.atom
  if JMap.hasKey st.transactions atom.hid then st else
  let message :=
    match atomUpdate.decryptedData with
    | some d =>
      if d.decryptionState ≠ RadixDecryptionState.CANNOT_DECRYPT then d.data else ""
    | none => ""
  let t0 : RadixTransaction :=
    { hid := atom.hid, balance := [], fee := 0, participants := [],
      timestamp := atom.timestamp, message := message }
  let folded := atom.particles.foldl (storeConsumable selfAddress)
      (t0, st.unspentConsumables, st.spentConsumables)
  let t := folded.1
  let newBalance := t.balance.foldl
      (fun b kv => JMap.set b kv.1 (JMap.getD b kv.1 0 + kv.2)) st.balance
  { transactions := JMap.set st.transactions atom.hid t,
    balance := newBalance,
    unspentConsumables := folded.2.1,
    spentConsumables := folded.2.2,
    balanceEmissions := st.balanceEmissions ++ [newBalance],
    transactionEmissions := st.transactionEmissions ++ [⟨"STORE", atom.hid, t⟩] }

/-- processDeleteAtom.  Skips unknown hids; re-folds the particles with the
inverted loop *into the stored transaction's own balance map* (the source
`iadd`s into the retrieved transaction object), removes the transaction, and
subtracts the (now mutated) transaction balance from the account balance. -/
def processDeleteAtom (selfAddress : Nat) (st : TransferState)
    (atomUpdate : RadixAtomUpdate) : TransferState :=
  let atom := atomUpdate.atom
  match JMap.get? st.transactions atom.hid with
  | none => st
  | some stored =>
    let folded := atom.particles.foldl (deleteConsumable selfAddress)
        (stored, st.unspentConsumables, st.spentConsumables)
    let t := folded.1
    let newBalance := t.balance.foldl
        (fun b kv => JMap.set b kv.1 (JMap.getD b kv.1 0 - kv.2)) st.balance
    { transactions := JMap.del st.transactions atom.hid,
      balance := newBalance,
      unspentConsumables := folded.2.1,
      spentConsumables := folded.2.2,
      balanceEmissions := st.balanceEmissions ++ [newBalance],
      transactionEmissions := st.transactionEmissions ++ [⟨"DELETE", atom.hid, t⟩] }

/-- processAtomUpdate: ignore atoms without owned-tokens particles, then
dispatch on the action string. -/
def processAtomUpdate (selfAddress : Nat) (st : TransferState)
    (atomUpdate : RadixAtomUpdate) : TransferState :=
  if atomUpdate.atom.particles.isEmpty then st
  else if atomUpdate.action = "STORE" then processStoreAtom selfAddress st atomUpdate
  else if atomUpdate.action = "DELETE" then processDeleteAtom selfAddress st atomUpdate
  else st

end RadixTransferAccountSystem

/-- The spec's consistency sum: Σ amount(p) over unspent consumables `p` with
`p.tokenClass = k` (written from the spec's words, to compare against the
account balance maintained by the code). -/
def unspentSumOf (st : TransferState) (k : Nat) : Int :=
  (st.unspentConsumables.map
    (fun kv => if kv.2.tokenClass == k then (kv.2.amount : Int) else 0)).sum

/-- Disjointness of the unspent/spent consumable maps, by particle id. -/
def DisjointMaps (unspent spent : List (Nat × Particle)) : Prop :=
  ∀ k, JMap.hasKey unspent k = true → JMap.hasKey spent k = false

/-- The C5 invariant on a transfer-account state. -/
def DisjointConsumables (st : TransferState) : Prop :=
  DisjointMaps st.unspentConsumables st.spentConsumables

/-- Scenario A particle: UP-spin, owned, amount 100, token class 7, not a fee. -/
def p1 : Particle := ⟨1, 0, 100, 7, false⟩

/-- Scenario A atom `a1` holding the single spun particle `p1`. -/
def a1 : Atom := ⟨1, 0, [⟨RadixSpin.UP, p1⟩]⟩

/-- STORE(a1). -/
def storeA1 : RadixAtomUpdate := ⟨"STORE", a1, none⟩

/-- DELETE(a1). -/
def deleteA1 : RadixAtomUpdate := ⟨"DELETE", a1, none⟩

/-- An update carrying an action that is neither STORE nor DELETE. -/
def updateA1Unknown : RadixAtomUpdate := ⟨"UPDATE", a1, none⟩

/-- The account state right after STORE(a1) from the empty initial state. -/
def afterStoreA1 : TransferState :=
  RadixTransferAccountSystem.processAtomUpdate 0 TransferState.initial storeA1

/-- The account state after STORE(a1) followed by DELETE(a1). -/
def afterStoreDeleteA1 : TransferState :=
  RadixTransferAccountSystem.processAtomUpdate 0 afterStoreA1 deleteA1

namespace RadixNodeConnection

/-- Events that change the `numberOfSubscriptions` behavior subject:
`inc` is a successful non-first `Atoms.subscribe` ack or the `finally` of
`Universe.submitAtomAndSubscribe`; `dec` is the unconditional `finally` of
`unsubscribe` or a terminal atom-submission state; `setZero` is the
`numberOfSubscriptions.next(0)` issued by `unsubscribeAll`. -/
inductive RefEvent
  | inc
  | dec
  | setZero
deriving DecidableEq, Repr

/-- The refcount subsystem of a node connection: the behavior subject's current
value and the number of armed 5-second close timers.  The constructor's
subscriber arms a `setTimeout(close, 5000)` on every emission of a value ≤ 0
and the timer handle is discarded, so armed timers are never cleared: each one
fires `close()` at expiry. -/
structure ConnState where
  numberOfSubscriptions : Int
  pendingCloses : Nat
deriving DecidableEq, Repr

/-- A fresh connection: `new BehaviorSubject<number>(1)`; the constructor's own
subscription sees the initial value 1, which arms nothing. -/
def ConnState.initial : ConnState := ⟨1, 0⟩

/-- The value the behavior subject is advanced to by one event
(`getValue() + 1`, `getValue() - 1`, or a literal 0). -/
def nextValue (c : Int) : RefEvent → Int
  | RefEvent.inc => c + 1
  | RefEvent.dec => c - 1
  | RefEvent.setZero => 0

/-- `numberOfSubscriptions.next(v)`: the constructor's subscriber runs
synchronously and arms a close timer when `v ≤ 0`. -/
def emitCount (s : ConnState) (v : Int) : ConnState :=
  ⟨v, s.pendingCloses + (if v ≤ 0 then 1 else 0)⟩

/-- One refcount event applied to the connection. -/
def stepRef (s : ConnState) (e : RefEvent) : ConnState :=
  emitCount s (nextValue s.numberOfSubscriptions e)

/-- A whole sequence of refcount events. -/
def runRef (s : ConnState) (es : List RefEvent) : ConnState := es.foldl stepRef s

/-- Specification-side count (written from the spec's words, for the amended
C6): how many emissions in the event sequence carry a value ≤ 0, starting from
current value `c`.  Each of them arms one close timer in the code. -/
def armedCloses (c : Int) : List RefEvent → Nat
  | [] => 0
  | e :: es => (if nextValue c e ≤ 0 then 1 else 0) + armedCloses (nextValue c e) es

/-- An rxjs observer notification delivered to a submission state subject. -/
inductive StreamEvent
  | next (value : String)
  | complete
  | error (message : String)
deriving DecidableEq, Repr

/-- The effect of one handler invocation on the submission's state subject and
on the refcount (`refDelta` sums the `numberOfSubscriptions.next(getValue() - 1)`
calls). -/
structure SubmissionEffect where
  events : List StreamEvent
  refDelta : Int
deriving DecidableEq, Repr

/-- The four terminal-failure codes of the submission state machine. -/
def isFailureValue (value : String) : Bool :=
  value == "COLLISION" || value == "ILLEGAL_STATE" ||
    value == "UNSUITABLE_PEER" || value == "VALIDATION_ERROR"

/-- Terminal values: STORED (ok) or a terminal failure. -/
def isTerminalValue (value : String) : Bool :=
  value == "STORED" || isFailureValue value

/-- _onAtomSubmissionStateUpdate: the `switch (value)` over a notification's
`value` and `message`.  Unrecognized values fall through the switch and do
nothing. -/
def onAtomSubmissionStateUpdate (value message : String) : SubmissionEffect :=
  if value == "SUBMITTING" || value == "SUBMITTED" then
    ⟨[StreamEvent.next value], 0⟩
  else if value == "STORED" then
    ⟨[StreamEvent.next value, StreamEvent.complete], -1⟩
  else if isFailureValue value then
    ⟨[StreamEvent.error (value ++ ": " ++ message)], -1⟩
  else
    ⟨[], 0⟩

/-- Net refcount change produced by a sequence of (value, message)
notifications for one submission subject. -/
def totalRefDelta (ns : List (String × String)) : Int :=
  (ns.map (fun n => (onAtomSubmissionStateUpdate n.1 n.2).refDelta)).sum

/-- Settlement of the `Universe.submitAtomAndSubscribe` RPC call. -/
inductive CallResult
  | ok
  | err (message : String)
deriving DecidableEq, Repr

/-- How one `submitAtom` run unfolds in time: either the call settles within
the 5-second window (the settle callback clears the timer), or the timer fires
first and the call settles later or never. -/
inductive SubmitScenario
  | settledBeforeTimeout (r : CallResult)
  | timedOut (r : Option CallResult)
deriving DecidableEq, Repr

/-- Whether the RPC call settles at all in the scenario (the `finally` that
increments the refcount runs exactly when it does). -/
def callSettles : SubmitScenario → Bool
  | SubmitScenario.settledBeforeTimeout _ => true
  | SubmitScenario.timedOut r => r.isSome

/-- Observable outcome of one `submitAtom` call: the state subject's initial
value, its subsequent notifications, whether `this._socket.close()` ran, and
the refcount change. -/
structure SubmitResult where
  initialState : String
  events : List StreamEvent
  socketClosed : Bool
  refDelta : Int
deriving DecidableEq, Repr

/-- submitAtom.  The subject starts as `new BehaviorSubject('CREATED')`.  On
call success `SUBMITTED` is pushed; on call failure the subject errors with the
call's error and the socket stays open (only the timeout callback closes it);
when the 5-second timer fires first, the socket is closed and the subject
errors with 'Socket timeout' (a later settlement hits an already-stopped
subject, so its next/error are ignored).  The `finally` increments the
refcount whenever the call settles. -/
def submitAtom : SubmitScenario → SubmitResult
  | SubmitScenario.settledBeforeTimeout CallResult.ok =>
      ⟨"CREATED", [StreamEvent.next "SUBMITTED"], false, 1⟩
  | SubmitScenario.settledBeforeTimeout (CallResult.err e) =>
      ⟨"CREATED", [StreamEvent.error e], false, 1⟩
  | SubmitScenario.timedOut none =>
      ⟨"CREATED", [StreamEvent.error "Socket timeout"], true, 0⟩
  | SubmitScenario.timedOut (some _) =>
      ⟨"CREATED", [StreamEvent.error "Socket timeout"], true, 1⟩

end RadixNodeConnection

namespace RadixCacheAccountSystem

/-- Calls the cache system issues to its pluggable RadixAtomCacheProvider. -/
inductive CacheOp
  | storeAtom (a : Atom)
  | deleteAtom (a : Atom)
  | getAtoms
deriving DecidableEq, Repr

/-- RadixCacheAccountSystem.processAtomUpdate: with no provider configured it
returns immediately; otherwise STORE forwards to `atomCache.storeAtom` and
DELETE to `atomCache.deleteAtom` (any other action does nothing).  It cannot
fail, so the result is just the list of provider calls. -/
def processAtomUpdate (hasAtomCache : Bool) (atomUpdate : RadixAtomUpdate) :
    List CacheOp :=
  if !hasAtomCache then []
  else if atomUpdate.action = "STORE" then [CacheOp.storeAtom atomUpdate.atom]
  else if atomUpdate.action = "DELETE" then [CacheOp.deleteAtom atomUpdate.atom]
  else []

/-- RadixCacheAccountSystem.loadAtoms: `return this.atomCache.getAtoms(this.keyPair)`
with no guard, so with no provider configured it dereferences `undefined` and
the async method rejects with a TypeError — modelled as `none`. -/
def loadAtoms (hasAtomCache : Bool) : Option (List CacheOp) :=
  if hasAtomCache then some [CacheOp.getAtoms] else none

end RadixCacheAccountSystem

theorem JMap.hasKey_set_iff {α : Type} (m : List (Nat × α)) (k k' : Nat) (v : α) :
    JMap.hasKey (JMap.set m k v) k' = true ↔ (k' = k ∨ JMap.hasKey m k' = true) := by
  induction m with
  | nil =>
    simp only [JMap.set, JMap.hasKey, Bool.or_false, beq_iff_eq]
    exact ⟨fun h => Or.inl h.symm, fun h => by rcases h with h | h; exact h.symm; cases h⟩
  | cons kv rest ih =>
    by_cases hk : kv.1 = k
    · subst hk
      simp only [JMap.set, beq_self_eq_true, if_true, JMap.hasKey, Bool.or_eq_true,
        beq_iff_eq]
      constructor
      · rintro (h | h)
        · exact Or.inl h.symm
        · exact Or.inr (Or.inr h)
      · rintro (h | h | h)
        · exact Or.inl h.symm
        · exact Or.inl h
        · exact Or.inr h
    · have hkb : (kv.1 == k) = false := by simp [hk]
      simp only [JMap.set, hkb, Bool.false_eq_true, if_false, JMap.hasKey,
        Bool.or_eq_true] at ih ⊢
      constructor
      · rintro (h | h)
        · exact Or.inr (Or.inl h)
        · rcases ih.mp h with h | h
          · exact Or.inl h
          · exact Or.inr (Or.inr h)
      · rintro (h | h | h)
        · exact Or.inr (ih.mpr (Or.inl h))
        · exact Or.inl h
        · exact Or.inr (ih.mpr (Or.inr h))

theorem JMap.hasKey_del_iff {α : Type} (m : List (Nat × α)) (k k' : Nat) :
    JMap.hasKey (JMap.del m k) k' = true ↔ (k' ≠ k ∧ JMap.hasKey m k' = true) := by
  induction m with
  | nil => simp [JMap.del, JMap.hasKey]
  | cons kv rest ih =>
    by_cases hk : kv.1 = k
    · subst hk
      simp only [JMap.del, beq_self_eq_true, if_true, JMap.hasKey, Bool.or_eq_true,
        beq_iff_eq]
      constructor
      · intro h
        exact ⟨(ih.mp h).1, Or.inr (ih.mp h).2⟩
      · rintro ⟨hne, h | h⟩
        · exact absurd h.symm hne
        · exact ih.mpr ⟨hne, h⟩
    · have hkb : (kv.1 == k) = false := by simp [hk]
      simp only [JMap.del, hkb, Bool.false_eq_true, if_false, JMap.hasKey,
        Bool.or_eq_true, beq_iff_eq] at ih ⊢
      constructor
      · rintro (h | h)
        · subst h
          exact ⟨hk, Or.inl rfl⟩
        · exact ⟨(ih.mp h).1, Or.inr (ih.mp h).2⟩
      · rintro ⟨hne, h | h⟩
        · exact Or.inl h
        · exact Or.inr (ih.mpr ⟨hne, h⟩)

theorem JMap.get?_eq_none_of_hasKey {α : Type} (m : List (Nat × α)) (k : Nat)
    (h : JMap.hasKey m k = false) : JMap.get? m k = none := by
  induction m with
  | nil => rfl
  | cons kv rest ih =>
    simp only [JMap.hasKey, Bool.or_eq_false_iff] at h
    simp only [JMap.get?, h.1, Bool.false_eq_true, if_false]
    exact ih h.2

/-- Claim C1: the spec says the signed delta for an owned non-fee particle is
exactly `-amount` (DOWN) or `+amount` (UP), and that Scenario A yields balance
`+100`.  The code initializes the delta accumulator to `new BN(1)` (one, not
zero), so STORE(a1) — a single owned UP particle of amount 100 — produces a
transaction balance and an account balance of 101 for token class 7. -/
theorem c1_store_delta_off_by_one :
    afterStoreA1.balance = [(7, 101)] ∧
    afterStoreA1.transactions = [(1, ⟨1, [(7, 101)], 0, [], 0, ""⟩)] := by
  exact ⟨rfl, rfl⟩

/-- Claim C2: the spec's reversibility law says STORE(a1) then DELETE(a1)
restores `{unspentConsumables, spentConsumables, balance}` to the pre-STORE
(empty) values.  In the code the pair leaves `balance = {7 ↦ 100}` (the BN(1)
slip: the DELETE fold `iadd`s the inverse deltas into the stored transaction's
own balance, leaving exactly the stray `+1` per particle to be subtracted) and
moves p1 into `spentConsumables` instead of dropping it. -/
theorem c2_store_delete_not_reversible :
    afterStoreDeleteA1.balance = [(7, 100)] ∧
    afterStoreDeleteA1.unspentConsumables = [] ∧
    afterStoreDeleteA1.spentConsumables = [(1, p1)] ∧
    TransferState.initial.balance = [] ∧
    TransferState.initial.spentConsumables = [] := by
  exact ⟨rfl, rfl, rfl, rfl, rfl⟩

/-- Claim C3: the spec's consistency invariant says `balance[k]` equals the sum
of `amount(p)` over unspent consumables of token class k in every reachable
state.  Already after the single STORE(a1) the code holds `balance[7] = 101`
while the unspent consumables of token class 7 sum to 100; and after
STORE(a1); DELETE(a1) the stored transactions are gone (sum 0) while
`balance[7] = 100`. -/
theorem c3_consistency_invariant_broken :
    afterStoreA1.balance = [(7, 101)] ∧
    unspentSumOf afterStoreA1 7 = 100 ∧
    afterStoreDeleteA1.transactions = [] ∧
    afterStoreDeleteA1.balance = [(7, 100)] := by
  exact ⟨rfl, rfl, rfl, rfl⟩

/-- Claim C4: a STORE whose atom hid is already stored returns before touching
any state (duplicate STORE is idempotent), and a DELETE whose hid is absent
returns likewise (orphan DELETE is a no-op).  The state equality covers the
emission histories, so no transaction or balance event is emitted either. -/
theorem c4_duplicate_store_orphan_delete (selfAddress : Nat) (st : TransferState)
    (u : RadixAtomUpdate) :
    (u.action = "STORE" → JMap.hasKey st.transactions u.atom.hid = true →
      RadixTransferAccountSystem.processAtomUpdate selfAddress st u = st) ∧
    (u.action = "DELETE" → JMap.hasKey st.transactions u.atom.hid = false →
      RadixTransferAccountSystem.processAtomUpdate selfAddress st u = st) := by
  constructor
  · intro ha hk
    unfold RadixTransferAccountSystem.processAtomUpdate
    by_cases he : u.atom.particles.isEmpty
    · simp [he]
    · unfold RadixTransferAccountSystem.processStoreAtom
      simp [he, ha, hk]
  · intro ha hk
    unfold RadixTransferAccountSystem.processAtomUpdate
    by_cases he : u.atom.particles.isEmpty
    · simp [he]
    · unfold RadixTransferAccountSystem.processDeleteAtom
      simp [he, ha, JMap.get?_eq_none_of_hasKey _ _ hk]

theorem c4_witness :
    RadixTransferAccountSystem.processAtomUpdate 0 afterStoreA1 storeA1 = afterStoreA1 ∧
    RadixTransferAccountSystem.processAtomUpdate 0 TransferState.initial deleteA1
      = TransferState.initial := by
  constructor
  · exact (c4_duplicate_store_orphan_delete 0 afterStoreA1 storeA1).1 rfl rfl
  · exact (c4_duplicate_store_orphan_delete 0 TransferState.initial deleteA1).2 rfl rfl

/-- Claim C10: an atom update whose action is neither STORE nor DELETE leaves
the whole transfer-account state — transactions, balance, both consumable maps
and both emission histories — unchanged. -/
theorem c10_unknown_action_frame (selfAddress : Nat) (st : TransferState)
    (u : RadixAtomUpdate) (h1 : u.action ≠ "STORE") (h2 : u.action ≠ "DELETE") :
    RadixTransferAccountSystem.processAtomUpdate selfAddress st u = st := by
  unfold RadixTransferAccountSystem.processAtomUpdate
  simp [h1, h2]

theorem c10_witness :
    RadixTransferAccountSystem.processAtomUpdate 0 TransferState.initial updateA1Unknown
      = TransferState.initial :=
  c10_unknown_action_frame 0 TransferState.initial updateA1Unknown
    (by decide) (by decide)

theorem storeConsumable_disjoint (selfAddress : Nat)
    (acc : RadixTransaction × List (Nat × Particle) × List (Nat × Particle))
    (c : SpunParticle) (h : DisjointMaps acc.2.1 acc.2.2) :
    DisjointMaps (RadixTransferAccountSystem.storeConsumable selfAddress acc c).2.1
      (RadixTransferAccountSystem.storeConsumable selfAddress acc c).2.2 := by
  obtain ⟨t, unspent, spent⟩ := acc
  unfold RadixTransferAccountSystem.storeConsumable
  dsimp only at h ⊢
  by_cases h1 : ((c.particle.address == selfAddress) && !c.particle.isFee) = true
  · simp only [h1, if_true]
    cases hs : c.spin
    · -- UP: guarded insert into unspent
      dsimp only
      by_cases hg : JMap.hasKey spent c.particle.id = true
      · simp only [hg, if_true]
        exact h
      · have hg' : JMap.hasKey spent c.particle.id = false := by
          cases hv : JMap.hasKey spent c.particle.id
          · rfl
          · exact absurd hv hg
        simp only [hg', Bool.false_eq_true, if_false]
        intro k hk
        rcases (JMap.hasKey_set_iff unspent c.particle.id k c.particle).mp hk with hke | hku
        · subst hke
          exact hg'
        · exact h k hku
    · -- DOWN: move unspent → spent
      dsimp only
      intro k hk
      obtain ⟨hne, hku⟩ := (JMap.hasKey_del_iff unspent c.particle.id k).mp hk
      cases hv : JMap.hasKey (JMap.set spent c.particle.id c.particle) k
      · rfl
      · rcases (JMap.hasKey_set_iff spent c.particle.id k c.particle).mp hv with hke | hks
        · exact absurd hke hne
        · rw [h k hku] at hks
          cases hks
  · simp only [h1, Bool.false_eq_true, if_false]
    by_cases h2 : (!(c.particle.address == selfAddress) && !c.particle.isFee) = true
    · simp only [h2, if_true]
      exact h
    · simp only [h2, Bool.false_eq_true, if_false]
      exact h

theorem deleteConsumable_disjoint (selfAddress : Nat)
    (acc : RadixTransaction × List (Nat × Particle) × List (Nat × Particle))
    (c : SpunParticle) (h : DisjointMaps acc.2.1 acc.2.2) :
    DisjointMaps (RadixTransferAccountSystem.deleteConsumable selfAddress acc c).2.1
      (RadixTransferAccountSystem.deleteConsumable selfAddress acc c).2.2 := by
  obtain ⟨t, unspent, spent⟩ := acc
  unfold RadixTransferAccountSystem.deleteConsumable
  dsimp only at h ⊢
  by_cases h1 : ((c.particle.address == selfAddress) && !c.particle.isFee) = true
  · simp only [h1, if_true]
    cases hs : c.spin
    · -- UP: move unspent → spent
      dsimp only
      intro k hk
      obtain ⟨hne, hku⟩ := (JMap.hasKey_del_iff unspent c.particle.id k).mp hk
      cases hv : JMap.hasKey (JMap.set spent c.particle.id c.particle) k
      · rfl
      · rcases (JMap.hasKey_set_iff spent c.particle.id k c.particle).mp hv with hke | hks
        · exact absurd hke hne
        · rw [h k hku] at hks
          cases hks
    · -- DOWN: move spent → unspent
      dsimp only
      intro k hk
      rcases (JMap.hasKey_set_iff unspent c.particle.id k c.particle).mp hk with hke | hku
      · subst hke
        cases hv : JMap.hasKey (JMap.del spent c.particle.id) c.particle.id
        · rfl
        · exact absurd rfl ((JMap.hasKey_del_iff spent c.particle.id c.particle.id).mp hv).1
      · cases hv : JMap.hasKey (JMap.del spent c.particle.id) k
        · rfl
        · have hks := ((JMap.hasKey_del_iff spent c.particle.id k).mp hv).2
          rw [h k hku] at hks
          cases hks
  · simp only [h1, Bool.false_eq_true, if_false]
    by_cases h2 : (!(c.particle.address == selfAddress) && !c.particle.isFee) = true
    · simp only [h2, if_true]
      exact h
    · simp only [h2, Bool.false_eq_true, if_false]
      exact h

theorem foldl_storeConsumable_disjoint (selfAddress : Nat) (cs : List SpunParticle) :
    ∀ (acc : RadixTransaction × List (Nat × Particle) × List (Nat × Particle)),
      DisjointMaps acc.2.1 acc.2.2 →
      DisjointMaps
        (cs.foldl (RadixTransferAccountSystem.storeConsumable selfAddress) acc).2.1
        (cs.foldl (RadixTransferAccountSystem.storeConsumable selfAddress) acc).2.2 := by
  induction cs with
  | nil => intro acc h; simpa using h
  | cons c cs ih =>
    intro acc h
    simp only [List.foldl_cons]
    exact ih _ (storeConsumable_disjoint selfAddress acc c h)

theorem foldl_deleteConsumable_disjoint (selfAddress : Nat) (cs : List SpunParticle) :
    ∀ (acc : RadixTransaction × List (Nat × Particle) × List (Nat × Particle)),
      DisjointMaps acc.2.1 acc.2.2 →
      DisjointMaps
        (cs.foldl (RadixTransferAccountSystem.deleteConsumable selfAddress) acc).2.1
        (cs.foldl (RadixTransferAccountSystem.deleteConsumable selfAddress) acc).2.2 := by
  induction cs with
  | nil => intro acc h; simpa using h
  | cons c cs ih =>
    intro acc h
    simp only [List.foldl_cons]
    exact ih _ (deleteConsumable_disjoint selfAddress acc c h)

/-- Claim C5: every transfer-account operation preserves the invariant that no
particle id is a key of both unspentConsumables and spentConsumables.  Each
branch of both particle loops either moves an id wholesale from one map to the
other, or (the STORE UP case) inserts into unspent only behind the
`!spentConsumables.has(id)` guard. -/
theorem c5_consumables_disjoint (selfAddress : Nat) (st : TransferState)
    (u : RadixAtomUpdate) (h : DisjointConsumables st) :
    DisjointConsumables (RadixTransferAccountSystem.processAtomUpdate selfAddress st u) := by
  unfold RadixTransferAccountSystem.processAtomUpdate
  split
  · exact h
  split
  · unfold RadixTransferAccountSystem.processStoreAtom
    dsimp only
    split
    · exact h
    · exact foldl_storeConsumable_disjoint selfAddress u.atom.particles _ h
  split
  · unfold RadixTransferAccountSystem.processDeleteAtom
    dsimp only
    split
    · exact h
    · exact foldl_deleteConsumable_disjoint selfAddress u.atom.particles _ h
  · exact h

theorem c5_witness :
    DisjointConsumables TransferState.initial ∧
    DisjointConsumables
      (RadixTransferAccountSystem.processAtomUpdate 0 TransferState.initial storeA1) := by
  have h0 : DisjointConsumables TransferState.initial := by
    intro k hk
    simp [TransferState.initial, JMap.hasKey] at hk
  exact ⟨h0, c5_consumables_disjoint 0 TransferState.initial storeA1 h0⟩

open RadixNodeConnection

/-- Counterexample to claim C6.  From the initial refcount 1: one unsubscribe
drops the count to 0 and arms a close; a subscribe ack during the grace window
brings the count back to 1, yet the armed close remains pending (the code never
stores or clears the timer handle), so close() still fires — re-activation
does not cancel it.  Two consecutive unsubscribes drive the count to -1, so
the count is not always ≥ 0 either. -/
theorem c6_counterexample :
    (runRef ConnState.initial [RefEvent.dec, RefEvent.inc]).numberOfSubscriptions = 1 ∧
    (runRef ConnState.initial [RefEvent.dec, RefEvent.inc]).pendingCloses = 1 ∧
    (runRef ConnState.initial [RefEvent.dec, RefEvent.dec]).numberOfSubscriptions = -1 ∧
    (runRef ConnState.initial [RefEvent.dec, RefEvent.dec]).pendingCloses = 2 := by
  exact ⟨rfl, rfl, rfl, rfl⟩

/-- Amended claim C6: the refcount follows the event deltas with no lower
bound, and every emission of a value ≤ 0 arms one 5-second close timer that is
never cancelled — the number of pending close() calls equals the number of
emissions that were ≤ 0, regardless of later re-activation. -/
theorem c6_amended_refcount (s : ConnState) (es : List RefEvent) :
    (runRef s es).pendingCloses
        = s.pendingCloses + armedCloses s.numberOfSubscriptions es ∧
    (runRef s es).numberOfSubscriptions = es.foldl nextValue s.numberOfSubscriptions := by
  induction es generalizing s with
  | nil => exact ⟨rfl, rfl⟩
  | cons e es ih =>
    obtain ⟨ih1, ih2⟩ := ih (stepRef s e)
    constructor
    · have hs : runRef s (e :: es) = runRef (stepRef s e) es := rfl
      rw [hs, ih1]
      show (s.pendingCloses + (if nextValue s.numberOfSubscriptions e ≤ 0 then 1 else 0))
            + armedCloses (nextValue s.numberOfSubscriptions e) es
          = s.pendingCloses + ((if nextValue s.numberOfSubscriptions e ≤ 0 then 1 else 0)
            + armedCloses (nextValue s.numberOfSubscriptions e) es)
      exact Nat.add_assoc _ _ _
    · exact ih2

theorem terminal_refDelta (value message : String)
    (h : isTerminalValue value = true) :
    (onAtomSubmissionStateUpdate value message).refDelta = -1 := by
  unfold isTerminalValue isFailureValue at h
  simp only [Bool.or_eq_true, beq_iff_eq] at h
  rcases h with h | (((h | h) | h) | h) <;> subst h <;> rfl

theorem nonterminal_refDelta (value message : String)
    (h : isTerminalValue value = false) :
    (onAtomSubmissionStateUpdate value message).refDelta = 0 := by
  unfold isTerminalValue at h
  rw [Bool.or_eq_false_iff] at h
  unfold onAtomSubmissionStateUpdate
  by_cases h0 : (value == "SUBMITTING" || value == "SUBMITTED") = true
  · simp [h0]
  · simp [h0, h.1, h.2]

theorem failure_effect (value message : String) (h : isFailureValue value = true) :
    onAtomSubmissionStateUpdate value message
      = ⟨[StreamEvent.error (value ++ ": " ++ message)], -1⟩ := by
  unfold isFailureValue at h
  simp only [Bool.or_eq_true, beq_iff_eq] at h
  rcases h with ((h | h) | h) | h <;> subst h <;> rfl

theorem lifetime_refDelta (ns : List (String × String)) (lastValue lastMessage : String)
    (hn : ∀ n ∈ ns, isTerminalValue n.1 = false)
    (ht : isTerminalValue lastValue = true) :
    totalRefDelta (ns ++ [(lastValue, lastMessage)]) = -1 := by
  induction ns with
  | nil =>
    have := terminal_refDelta lastValue lastMessage ht
    simp [totalRefDelta, this]
  | cons n ns ih =>
    have h1 := nonterminal_refDelta n.1 n.2 (hn n (List.mem_cons_self _ _))
    have h2 := ih (fun m hm => hn m (List.mem_cons_of_mem _ hm))
    simp only [totalRefDelta, List.cons_append, List.map_cons, List.sum_cons] at h2 ⊢
    rw [h1, h2]
    simp

/-- Claim C7: over a submission's lifetime (any run of non-terminal
notifications followed by its first terminal one) the handler decrements the
refcount exactly once, and it is the terminal notification that does it;
SUBMITTING/SUBMITTED are forwarded to the stream with no refcount change; a
terminal failure errors the stream with the string `value ++ ": " ++ message`. -/
theorem c7_submission_state_machine :
    (∀ value message, isTerminalValue value = true →
        (onAtomSubmissionStateUpdate value message).refDelta = -1) ∧
    (∀ value message, (value = "SUBMITTING" ∨ value = "SUBMITTED") →
        onAtomSubmissionStateUpdate value message
          = ⟨[StreamEvent.next value], 0⟩) ∧
    (∀ value message, isFailureValue value = true →
        onAtomSubmissionStateUpdate value message
          = ⟨[StreamEvent.error (value ++ ": " ++ message)], -1⟩) ∧
    (∀ (ns : List (String × String)) (lastValue lastMessage : String),
        (∀ n ∈ ns, isTerminalValue n.1 = false) →
        isTerminalValue lastValue = true →
        totalRefDelta (ns ++ [(lastValue, lastMessage)]) = -1) := by
  refine ⟨terminal_refDelta, ?_, failure_effect, lifetime_refDelta⟩
  intro value message h
  rcases h with h | h <;> subst h <;> rfl

theorem c7_witness :
    (onAtomSubmissionStateUpdate "STORED" "").refDelta = -1 ∧
    onAtomSubmissionStateUpdate "SUBMITTING" "x"
      = ⟨[StreamEvent.next "SUBMITTING"], 0⟩ ∧
    onAtomSubmissionStateUpdate "COLLISION" "conflict"
      = ⟨[StreamEvent.error "COLLISION: conflict"], -1⟩ ∧
    totalRefDelta [("SUBMITTING", ""), ("SUBMITTED", ""), ("STORED", "done")] = -1 := by
  refine ⟨c7_submission_state_machine.1 "STORED" "" (by decide),
    c7_submission_state_machine.2.1 "SUBMITTING" "x" (Or.inl rfl),
    c7_submission_state_machine.2.2.1 "COLLISION" "conflict" (by decide),
    c7_submission_state_machine.2.2.2 [("SUBMITTING", ""), ("SUBMITTED", "")]
      "STORED" "done" (by decide) (by decide)⟩

/-- Counterexample to claim C8: when the `Universe.submitAtomAndSubscribe`
call fails (settling before the 5-second timer), the stream errors but the
socket is NOT closed — only the timeout callback calls `this._socket.close()`. -/
theorem c8_counterexample :
    (submitAtom (SubmitScenario.settledBeforeTimeout
        (CallResult.err "call failed"))).socketClosed = false ∧
    (submitAtom (SubmitScenario.settledBeforeTimeout
        (CallResult.err "call failed"))).events
      = [StreamEvent.error "call failed"] := by
  exact ⟨rfl, rfl⟩

/-- Amended claim C8: the state stream is initialized to CREATED in every
scenario; on call success the state advances to SUBMITTED; on call failure the
stream errors with the call's error but the socket stays open; on expiry of
the 5-second timeout the stream errors with 'Socket timeout' and the socket is
closed; the refcount is incremented exactly when the call settles. -/
theorem c8_amended_submit :
    (∀ sc, (submitAtom sc).initialState = "CREATED") ∧
    (∀ sc, (submitAtom sc).refDelta = (if callSettles sc then 1 else 0)) ∧
    submitAtom (SubmitScenario.settledBeforeTimeout CallResult.ok)
      = ⟨"CREATED", [StreamEvent.next "SUBMITTED"], false, 1⟩ ∧
    (∀ e, submitAtom (SubmitScenario.settledBeforeTimeout (CallResult.err e))
      = ⟨"CREATED", [StreamEvent.error e], false, 1⟩) ∧
    (∀ r, (submitAtom (SubmitScenario.timedOut r)).socketClosed = true ∧
      (submitAtom (SubmitScenario.timedOut r)).events
        = [StreamEvent.error "Socket timeout"]) := by
  refine ⟨fun sc => ?_, fun sc => ?_, rfl, fun e => rfl, fun r => ?_⟩
  · rcases sc with r | r
    · rcases r with _ | e <;> rfl
    · rcases r with _ | r <;> rfl
  · rcases sc with r | r
    · rcases r with _ | e <;> rfl
    · rcases r with _ | r <;> rfl
  · rcases r with _ | r <;> exact ⟨rfl, rfl⟩

/-- Counterexample to claim C9: `loadAtoms` has no provider guard
(`return this.atomCache.getAtoms(this.keyPair)`), so with no cache provider
configured it dereferences `undefined` and rejects instead of completing
without error. -/
theorem c9_counterexample : RadixCacheAccountSystem.loadAtoms false = none := rfl

/-- Amended claim C9: with no provider configured, `processAtomUpdate` (STORE
and DELETE alike) is a no-op that completes without error, but `loadAtoms`
fails; with a provider configured, STORE writes the atom to the provider,
DELETE removes it, and loading requests the previously stored atoms. -/
theorem c9_amended_cache :
    (∀ u, RadixCacheAccountSystem.processAtomUpdate false u = []) ∧
    (∀ a d, RadixCacheAccountSystem.processAtomUpdate true ⟨"STORE", a, d⟩
      = [RadixCacheAccountSystem.CacheOp.storeAtom a]) ∧
    (∀ a d, RadixCacheAccountSystem.processAtomUpdate true ⟨"DELETE", a, d⟩
      = [RadixCacheAccountSystem.CacheOp.deleteAtom a]) ∧
    RadixCacheAccountSystem.loadAtoms true
      = some [RadixCacheAccountSystem.CacheOp.getAtoms] := by
  exact ⟨fun u => rfl, fun a d => rfl, fun a d => rfl, rfl⟩
